import Mathlib

/-!
# Shallow embedding of librawincov (src/librawincov/converter.py)

The repository converts a DOCX file to PDF by locating a LibreOffice
executable (optionally reached through the WSL bridge on Windows),
building a command line, running it against a temporary output
directory and relocating the produced PDF to the requested output path.

Modelling conventions:
* Python strings are Lean `String`; character-level work is done on
  `List Char` through `String.toList`/`String.mk`.
* `pathlib.Path` construction and `str(...)` on a `Path` are modelled as
  the identity on the underlying string (inputs are assumed to be in
  normalized form: no trailing or doubled separators).  The rewrite
  stage of the path translator (`windows_to_wsl_path`) operates on the
  already-resolved path string; the resolution step `Path.resolve()` of
  converter.py line 70, which on Windows anchors rooted drive-less
  paths on the drive of the current working directory, is modelled
  separately by `resolveWindows`, and `windows_to_wsl_path_resolved`
  composes the two as the source function does.
* Ambient host state consulted by the locator (environment variables,
  `shutil.which`, `Path.exists`, `platform.system`) is an explicit
  record of oracles, `Env`.
* The filesystem touched by the converter is an explicit state `FS`
  (files as an association list from path to content, directories as a
  list of paths); the external LibreOffice process is an oracle
  `ProcBehavior` describing what running the built command does.
* Python exceptions are `Except` values; `RuntimeError` raised by the
  converter is `ConvError.conversion`, `FileNotFoundError` from the
  locator is `ConvError.notFound`, any other escaping exception
  (process spawn failure, `shutil.Error`) is `ConvError.unexpected`.
* `str.lower()` / `str.strip()` are modelled on their ASCII behaviour
  (`Char.toLower`, ASCII whitespace), which is the relevant range for
  drive letters and process diagnostics.
-/

namespace Librawincov

/-! ## String and path helpers -/

/-- One-character substitution underlying Python
`path_str.replace("\\", "/")` (converter.py lines 74 and 77). -/
def slashChar (c : Char) : Char :=
  if c = '\\' then '/' else c

/-- Python `path_str.replace("\\", "/")` on character lists. -/
def replaceBackslashes (l : List Char) : List Char :=
  l.map slashChar

/-- Python `path_str.replace("\\", "/")` on whole strings. -/
def replaceBackslashesStr (s : String) : String :=
  String.mk (replaceBackslashes s.toList)

/-- Core of `_windows_to_wsl_path` (converter.py lines 68-77) on the
character list of the resolved path string: if the string has length at
least 2 and its second character is a colon, rewrite to
`/mnt/<lowercased first character><rest with backslashes replaced>`;
otherwise only replace backslashes. -/
def windowsToWslChars (l : List Char) : List Char :=
  match l with
  | c :: ':' :: rest =>
      '/' :: 'm' :: 'n' :: 't' :: '/' :: c.toLower :: replaceBackslashes rest
  | other => replaceBackslashes other

/-- Rewrite stage of `_windows_to_wsl_path(win_path)` (converter.py
lines 72-77), taking the resolved path string; the full source
function, resolution step included, is `windows_to_wsl_path_resolved`
below. -/
def windows_to_wsl_path (p : String) : String :=
  String.mk (windowsToWslChars p.toList)

/-- Separator normalization performed by Windows pathlib when a path is
rendered: forward slashes become backslashes. -/
def backslashChar (ch : Char) : Char :=
  if ch = '/' then '\\' else ch

/-- Drive designator of the current working directory: its first two
characters when they form a drive, nothing otherwise. -/
def driveChars (cwd : String) : List Char :=
  match cwd.toList with
  | d :: ':' :: _ => [d, ':']
  | _ => []

/-- Modelled behaviour of `str(win_path.resolve())` on Windows
(converter.py line 70) — the platform on which the translator runs,
since bridged mode only arises in the Windows branch of the locator: a
path carrying a drive designator is already absolute and only has its
separators normalized to backslashes; a rooted drive-less path (such
as the output of the translator itself) is anchored on the drive of
the current working directory `cwd`; any other path is resolved
relative to `cwd`.  Symbolic links, dot segments, 8.3 names and UNC
paths are outside the model. -/
def resolveWindows (cwd : String) (p : String) : String :=
  match p.toList with
  | [] => cwd
  | c :: rest =>
    if c = '/' ∨ c = '\\' then
      String.mk (driveChars cwd ++ '\\' :: List.map backslashChar rest)
    else
      match rest with
      | ':' :: rest2 => String.mk (c :: ':' :: List.map backslashChar rest2)
      | _ => cwd ++ "\\" ++ String.mk (List.map backslashChar (c :: rest))

/-- The translator of converter.py lines 68-77 with the resolution step
of line 70 included, as it executes on Windows with working directory
`cwd`: resolve first, then rewrite. -/
def windows_to_wsl_path_resolved (cwd : String) (p : String) : String :=
  windows_to_wsl_path (resolveWindows cwd p)

/-- Split a character list on a separator character, mirroring how a
POSIX path decomposes into components at `/` (so `"a/b"` gives
`["a", "b"]`, `"/a"` gives `["", "a"]`, `""` gives `[""]`). -/
def splitOnChar (sep : Char) : List Char → List (List Char)
  | [] => [[]]
  | x :: xs =>
    match splitOnChar sep xs with
    | [] => [[]]
    | y :: ys => if x = sep then [] :: y :: ys else (x :: y) :: ys

/-- Join components with `/` separators (inverse of `splitOnChar '/'`). -/
def joinSlash : List (List Char) → List Char
  | [] => []
  | [x] => x
  | x :: xs => x ++ '/' :: joinSlash xs

/-- Python `pathlib.Path(p).name`: the final `/`-separated component (POSIX
flavour; inputs are assumed normalized, see module header). -/
def pathName (p : String) : String :=
  match (splitOnChar '/' p.toList).getLast? with
  | some comp => String.mk comp
  | none => ""

/-- Index of the last occurrence of a character, mirroring Python
`str.rfind` (`none` plays the role of `-1`). -/
def lastIdxOf (c : Char) (l : List Char) : Option Nat :=
  match l.reverse.indexOf? c with
  | some k => some (l.length - 1 - k)
  | none => none

/-- Python `pathlib.Path(p).stem`: the final component without its suffix.
Mirrors pathlib: with `i` the index of the last dot in the name, the
suffix is stripped only when `0 < i < len(name) - 1`. -/
def pathStem (p : String) : String :=
  let name := (pathName p).toList
  match lastIdxOf '.' name with
  | some i => if 0 < i ∧ i < name.length - 1 then String.mk (name.take i) else String.mk name
  | none => String.mk name

/-- Python `pathlib.Path(p).parent` (POSIX flavour, normalized input): drop the
last component; the parent of a single component is `"."`, the parent of
a top-level absolute component is `"/"`. -/
def pathParent (p : String) : String :=
  let comps := splitOnChar '/' p.toList
  if comps.length ≤ 1 then "." else
    let front := comps.dropLast
    if front = [[]] then "/" else String.mk (joinSlash front)

/-- The chain of directories `mkdir(parents=True)` brings into
existence for `dir`: every component-prefix of `dir`, except the empty
string and `"."` which denote no new directory. -/
def dirChain (dir : String) : List String :=
  let comps := splitOnChar '/' dir.toList
  ((List.range comps.length).map
    (fun i => String.mk (joinSlash (comps.take (i + 1))))).filter
    (fun d => d ≠ "" ∧ d ≠ ".")

/-- Whether path `p` lies strictly inside directory `t`
(`t ++ "/"` is a prefix of `p`). -/
def pathUnder (t p : String) : Bool :=
  (t ++ "/").toList.isPrefixOf p.toList

/-- Python `str.strip()` restricted to ASCII whitespace: drop leading
and trailing whitespace characters. -/
def pyStrip (s : String) : String :=
  String.mk (((s.toList.dropWhile Char.isWhitespace).reverse.dropWhile
    Char.isWhitespace).reverse)

/-! ## Locator (`find_libreoffice`, converter.py lines 22-65) -/

/-- Ambient host state consulted by the locator:
`libreoffice_path` is `os.environ.get("LIBREOFFICE_PATH")`,
`pathExists p` is `Path(p).exists()`,
`which n` is `shutil.which(n)` and
`system` is `platform.system()`. -/
structure Env where
  libreoffice_path : Option String
  pathExists : String → Bool
  which : String → Option String
  system : String

/-- First fixed Windows installation candidate (converter.py line 47). -/
def winCandidate1 : String := "C:\\Program Files\\LibreOffice\\program\\soffice.exe"

/-- Second fixed Windows installation candidate (converter.py line 48). -/
def winCandidate2 : String := "C:\\Program Files (x86)\\LibreOffice\\program\\soffice.exe"

/-- The Windows branch of `find_libreoffice` (converter.py lines
40-56): which over `soffice.exe` then `soffice`, then the two fixed
installation directories, then the WSL bridge sentinel. -/
def searchWindows (env : Env) : Option (String × Bool) :=
  if env.system = "Windows" then
    match env.which "soffice.exe" with
    | some found => some (found, false)
    | none =>
      match env.which "soffice" with
      | some found => some (found, false)
      | none =>
        if env.pathExists winCandidate1 then some (winCandidate1, false)
        else if env.pathExists winCandidate2 then some (winCandidate2, false)
        else
          match env.which "wsl" with
          | some _ => some ("wsl", true)
          | none => none
  else none

/-- The cross-platform tail of `find_libreoffice` (converter.py lines
58-61): which over `soffice` then `libreoffice`. -/
def searchDefault (env : Env) : Option (String × Bool) :=
  match env.which "soffice" with
  | some found => some (found, false)
  | none =>
    match env.which "libreoffice" with
    | some found => some (found, false)
    | none => none

/-- Failure message of `find_libreoffice` (converter.py lines 63-65). -/
def notFoundMsg : String :=
  "LibreOffice not found. Install it, set LIBREOFFICE_PATH, or use WSL."

/-- Tail of `find_libreoffice` after the override block did not return
(converter.py lines 40-65). -/
def findNoOverride (env : Env) : Except String (String × Bool) :=
  match searchWindows env with
  | some r => Except.ok r
  | none =>
    match searchDefault env with
    | some r => Except.ok r
    | none => Except.error notFoundMsg

/-- Function `find_libreoffice` (converter.py lines 22-65).  Note the Python
truthiness test `if env_path:` on line 34: an override set to the empty
string is skipped exactly like an unset override. -/
def find_libreoffice (env : Env) : Except String (String × Bool) :=
  match env.libreoffice_path with
  | some env_path =>
    if env_path ≠ "" then
      if env.pathExists env_path then Except.ok (env_path, false)
      else Except.error ("LIBREOFFICE_PATH not found: " ++ env_path)
    else findNoOverride env
  | none => findNoOverride env

/-- First match of `shutil.which` over a list of executable names. -/
def firstWhich (env : Env) : List String → Option String
  | [] => none
  | n :: rest =>
    match env.which n with
    | some f => some f
    | none => firstWhich env rest

/-- The fixed list of well-known Windows installation directories. -/
def windowsInstallCandidates : List String := [winCandidate1, winCandidate2]

/-- Resolution order as the specification words it (spec sections 4.1
steps 2-4 and claim C5), for comparison with `find_libreoffice`: on the
Windows-family system, search the process search path for the known
executable names; failing that, probe the fixed list of well-known
installation directories; failing that, report the bridged sentinel if
the bridge launcher is on the search path; on any operating system (and
as the final Windows fallback) search the search path for the primary
name, then the legacy alias; if nothing matches, fail. -/
def locateSpec (env : Env) : Except String (String × Bool) :=
  let winStep : Option (String × Bool) :=
    if env.system = "Windows" then
      match firstWhich env ["soffice.exe", "soffice"] with
      | some f => some (f, false)
      | none =>
        match (windowsInstallCandidates.filter env.pathExists).head? with
        | some cand => some (cand, false)
        | none =>
          if (env.which "wsl").isSome then some ("wsl", true) else none
    else none
  match winStep with
  | some r => Except.ok r
  | none =>
    match firstWhich env ["soffice", "libreoffice"] with
    | some f => Except.ok (f, false)
    | none => Except.error notFoundMsg

/-! ## Command builder (`_build_convert_command`, converter.py lines 80-107) -/

/-- Function `_build_convert_command(soffice_path, input_path, out_dir, use_wsl)`
(converter.py lines 80-107). -/
def build_convert_command (soffice_path input_path out_dir : String)
    (use_wsl : Bool) : List String :=
  if use_wsl then
    ["wsl", "soffice", "--headless", "--convert-to", "pdf", "--outdir",
      windows_to_wsl_path out_dir, windows_to_wsl_path input_path]
  else
    [soffice_path, "--headless", "--convert-to", "pdf", "--outdir",
      out_dir, input_path]

/-! ## Converter state model (`convert_docx_to_pdf`, converter.py lines 110-141) -/

/-- Explicit filesystem state touched by the converter: existing regular
files as an association list from path to content, and existing
directories. -/
structure FS where
  files : List (String × String)
  dirs : List String
deriving DecidableEq, Repr

/-- Behaviour of the external LibreOffice process spawned by
`subprocess.run` (converter.py line 130): either the spawn itself
raises (`raises`, e.g. the executable is missing), or the process runs,
writes `outputFiles` (name and content, relative to the `--outdir`
directory) and finishes with `returncode` and captured `stderr`. -/
structure ProcBehavior where
  raises : Bool
  raiseMsg : String
  returncode : Int
  stderr : String
  outputFiles : List (String × String)
deriving DecidableEq, Repr

/-- Exceptions escaping `convert_docx_to_pdf`: `notFound` is the
the `FileNotFoundError` of the locator, `conversion` is the
`RuntimeError`, `unexpected` is any other exception (spawn failure,
`shutil.Error`). -/
inductive ConvError where
  | notFound (msg : String)
  | conversion (msg : String)
  | unexpected (msg : String)
deriving DecidableEq, Repr

/-- Look up the content of the regular file at `p`. -/
def fsLookup (fs : FS) (p : String) : Option String :=
  (fs.files.find? (fun e => e.1 == p)).map (fun e => e.2)

/-- Remove any entry for the file at `p`. -/
def fsEraseFile (files : List (String × String)) (p : String) :
    List (String × String) :=
  files.filter (fun e => !(e.1 == p))

/-- Write content `c` to the file at `p`, replacing any previous entry. -/
def fsWrite (fs : FS) (p c : String) : FS :=
  { fs with files := (p, c) :: fsEraseFile fs.files p }

/-- Python `Path(p).exists()`: a regular file or a directory is at `p`. -/
def fsExists (fs : FS) (p : String) : Bool :=
  (fsLookup fs p).isSome || fs.dirs.contains p

/-- The filesystem after the temporary directory has been created and
the external process has run: each produced file lands inside
`tmpDir`. -/
def fsAfterRun (proc : ProcBehavior) (tmpDir : String) (fs : FS) : FS :=
  proc.outputFiles.foldl
    (fun acc nc => fsWrite acc (tmpDir ++ "/" ++ nc.1) nc.2)
    { fs with dirs := fs.dirs.insert tmpDir }

/-- Directory-chain extension performed by a successful
`mkdir(parents=True, exist_ok=True)`. -/
def mkdirAddDirs (fs : FS) (dir : String) : FS :=
  { fs with dirs := (dirChain dir).foldl (fun ds d => ds.insert d) fs.dirs }

/-- Python `output_path.parent.mkdir(parents=True, exist_ok=True)`
(converter.py line 140): bring the whole component chain of `dir` into
existence; when a regular file already occupies one of the components
the call raises (FileExistsError or NotADirectoryError, both OSError
subclasses and neither a RuntimeError) — exist_ok only suppresses the
error for an existing directory. -/
def mkdirParents (fs : FS) (dir : String) : Except ConvError FS :=
  if (dirChain dir).any (fun d => (fsLookup fs d).isSome) then
    Except.error (ConvError.unexpected ("FileExistsError: " ++ dir))
  else Except.ok (mkdirAddDirs fs dir)

/-- Python `shutil.move(src, dst)` (converter.py line 141) for a regular-file
`src`: if `dst` is an existing directory the source is moved inside it
(raising `shutil.Error` when the landing path already exists),
otherwise the source is renamed to `dst`, replacing any regular file
already there. -/
def fsMove (fs : FS) (src dst : String) : Except ConvError Unit × FS :=
  match fsLookup fs src with
  | none => (Except.error (ConvError.unexpected ("No such file: " ++ src)), fs)
  | some content =>
    if dst ∈ fs.dirs then
      let realDst := dst ++ "/" ++ pathName src
      if fsExists fs realDst then
        (Except.error (ConvError.unexpected
          ("Destination path " ++ realDst ++ " already exists")), fs)
      else
        (Except.ok (),
          { fs with files := (realDst, content) :: fsEraseFile fs.files src })
    else
      (Except.ok (),
        { fs with files :=
            (dst, content) :: fsEraseFile (fsEraseFile fs.files src) dst })

/-- Exit of the `with tempfile.TemporaryDirectory()` block
(converter.py line 127): the temporary directory and everything inside
it are removed. -/
def cleanupTmp (tmpDir : String) (fs : FS) : FS :=
  { files := fs.files.filter (fun e => !(pathUnder tmpDir e.1)),
    dirs := fs.dirs.filter (fun d => !(d == tmpDir || pathUnder tmpDir d)) }

/-- Generic failure message used when the trimmed error stream is empty
(converter.py line 133). -/
def genericFailMsg : String := "LibreOffice conversion failed."

/-- Message of the missing-output failure (converter.py line 138). -/
def noPdfMsg : String := "LibreOffice did not produce a PDF output."

/-- Body of the `with` block of `convert_docx_to_pdf` (converter.py
lines 128-141): build the command, run the process, check the exit
code, check for the produced PDF, create the output parent hierarchy
and move the PDF to the output path. -/
def convertInTmp (proc : ProcBehavior) (tmpDir soffice_path : String)
    (use_wsl : Bool) (input_path output_path : String) (fs : FS) :
    Except ConvError Unit × FS :=
  let _command := build_convert_command soffice_path input_path tmpDir use_wsl
  if proc.raises then
    (Except.error (ConvError.unexpected proc.raiseMsg),
      { fs with dirs := fs.dirs.insert tmpDir })
  else
    let fs2 := fsAfterRun proc tmpDir fs
    if proc.returncode ≠ 0 then
      (Except.error (ConvError.conversion
        (if pyStrip proc.stderr = "" then genericFailMsg
         else pyStrip proc.stderr)), fs2)
    else
      let tmpPdf := tmpDir ++ "/" ++ pathStem input_path ++ ".pdf"
      if fsExists fs2 tmpPdf then
        match mkdirParents fs2 (pathParent output_path) with
        | Except.error e => (Except.error e, fs2)
        | Except.ok fs3 => fsMove fs3 tmpPdf output_path
      else
        (Except.error (ConvError.conversion noPdfMsg), fs2)

/-- Function `convert_docx_to_pdf(input_path, output_path)` (converter.py lines
110-141): locate the executable (propagating `FileNotFoundError`
untouched, before any temporary directory exists), then run the body
inside the temporary-directory scope; the scope guarantees removal of
the temporary directory on every exit of the body. -/
def convert_docx_to_pdf (env : Env) (proc : ProcBehavior) (tmpDir : String)
    (input_path output_path : String) (fs : FS) :
    Except ConvError Unit × FS :=
  match find_libreoffice env with
  | Except.error msg => (Except.error (ConvError.notFound msg), fs)
  | Except.ok (soffice_path, use_wsl) =>
    let r := convertInTmp proc tmpDir soffice_path use_wsl
      input_path output_path fs
    (r.1, cleanupTmp tmpDir r.2)

/-! ## General lemmas about the embedded definitions -/

theorem slashChar_idem (a : Char) : slashChar (slashChar a) = slashChar a := by
  unfold slashChar
  by_cases h : a = '\\' <;> simp [h]

theorem replaceBackslashes_idem (l : List Char) :
    replaceBackslashes (replaceBackslashes l) = replaceBackslashes l := by
  unfold replaceBackslashes
  rw [List.map_map]
  exact congrFun (congrArg List.map (funext slashChar_idem)) l

theorem windowsToWslChars_colon (c : Char) (rest : List Char) :
    windowsToWslChars (c :: ':' :: rest) =
      '/' :: 'm' :: 'n' :: 't' :: '/' :: c.toLower :: replaceBackslashes rest := rfl

theorem windowsToWslChars_default (l : List Char)
    (h : ∀ d r, l ≠ d :: ':' :: r) :
    windowsToWslChars l = replaceBackslashes l := by
  unfold windowsToWslChars
  split
  · exact absurd rfl (h _ _)
  · rfl

theorem char_toNat_ofNat_valid {n : Nat} (h : n.isValidChar) :
    (Char.ofNat n).toNat = n := by
  simp [Char.ofNat, dif_pos h, Char.ofNatAux, Char.toNat, UInt32.toNat]

theorem toLower_ne_backslash (c : Char) (h : c.isAlpha = true) :
    c.toLower ≠ '\\' := by
  intro he
  unfold Char.toLower at he
  dsimp only [] at he
  split at he
  case isTrue hr =>
    have h2 := congrArg Char.toNat he
    rw [char_toNat_ofNat_valid] at h2
    · have h3 : c.toNat + 32 = 92 := by simpa using h2
      omega
    · exact Or.inl (by omega)
  case isFalse hr =>
    subst he
    simp [Char.isAlpha, Char.isUpper, Char.isLower] at h

theorem wtwChars_idem (c : Char) (rest : List Char) (h : c.isAlpha = true) :
    windowsToWslChars (windowsToWslChars (c :: ':' :: rest)) =
      windowsToWslChars (c :: ':' :: rest) := by
  rw [windowsToWslChars_colon]
  rw [windowsToWslChars_default]
  · simp only [replaceBackslashes, List.map_cons, List.map_map]
    rw [show (List.map (slashChar ∘ slashChar) rest) = List.map slashChar rest from
      congrFun (congrArg List.map (funext slashChar_idem)) rest]
    rw [show slashChar c.toLower = c.toLower from
      if_neg (toLower_ne_backslash c h)]
    simp [slashChar]
  · intro d r heq
    have h3 := congrArg (fun l => List.get? l 1) heq
    simp at h3

/-! ## Claims about the path translator and command builder -/

/-- C10: the drive-pattern test of the path translator only looks at
whether the second character is a colon; for every such path the mount
rewrite is applied even when the first character is not a letter, e.g.
the path 1:\x becomes /mnt/1/x, so the single-letter condition is never
enforced. -/
theorem c10_colon_test_ignores_letter :
    (∀ (c : Char) (rest : List Char),
      windows_to_wsl_path (String.mk (c :: ':' :: rest)) =
        String.mk ('/' :: 'm' :: 'n' :: 't' :: '/' :: c.toLower ::
          replaceBackslashes rest)) ∧
    windows_to_wsl_path "1:\\x" = "/mnt/1/x" :=
  ⟨fun _ _ => rfl, by decide⟩

/-- C2 counterexample: the path 1:\x does not begin with a single-letter
drive designator (its first character is not a letter), yet the
translator does not merely substitute backslashes as the claim states:
it produces /mnt/1/x instead of 1:/x. -/
theorem c2_counterexample :
    ('1'.isAlpha = false) ∧
    replaceBackslashesStr "1:\\x" = "1:/x" ∧
    windows_to_wsl_path "1:\\x" ≠ replaceBackslashesStr "1:\\x" := by
  decide

/-- C2 (amended): for every path whose second character is a colon —
whether or not the first character is a letter — the translator returns
/mnt/ followed by the lowercased first character and the remainder with
every backslash replaced by a forward slash; for every path without a
colon as its second character, the result is the input with only
backslash-to-forward-slash substitution applied. -/
theorem c2_amended_translation (c : Char) (rest : List Char) (s : String)
    (hs : ∀ d r, s.toList ≠ d :: ':' :: r) :
    windows_to_wsl_path (String.mk (c :: ':' :: rest)) =
        String.mk ('/' :: 'm' :: 'n' :: 't' :: '/' :: c.toLower ::
          replaceBackslashes rest) ∧
      windows_to_wsl_path s = replaceBackslashesStr s := by
  refine ⟨rfl, ?_⟩
  unfold windows_to_wsl_path replaceBackslashesStr
  rw [windowsToWslChars_default s.toList hs]

/-- Witness for the amended C2 at concrete inputs C:\x and f.docx. -/
theorem c2_amended_translation_witness :
    (∀ d r, ("f.docx" : String).toList ≠ d :: ':' :: r) ∧
    (windows_to_wsl_path (String.mk ('C' :: ':' :: '\\' :: 'x' :: [])) =
        String.mk ('/' :: 'm' :: 'n' :: 't' :: '/' :: 'C'.toLower ::
          replaceBackslashes ('\\' :: 'x' :: [])) ∧
      windows_to_wsl_path "f.docx" = replaceBackslashesStr "f.docx") := by
  have hs : ∀ d r, ("f.docx" : String).toList ≠ d :: ':' :: r := by
    intro d r h
    have h3 := congrArg (fun l => List.get? l 1) h
    simp at h3
  exact ⟨hs, c2_amended_translation 'C' ('\\' :: 'x' :: []) "f.docx" hs⟩

theorem isAlpha_not_sep (c : Char) (h : c.isAlpha = true) :
    ¬ (c = '/' ∨ c = '\\') := by
  rintro (hc | hc) <;> (subst hc; exact absurd h (by decide))

theorem resolveWindows_drive (cwd : String) (c : Char) (rest : List Char)
    (h : ¬ (c = '/' ∨ c = '\\')) :
    resolveWindows cwd (String.mk (c :: ':' :: rest)) =
      String.mk (c :: ':' :: List.map backslashChar rest) := by
  show (match c :: ':' :: rest with
    | [] => cwd
    | c :: rest =>
      if c = '/' ∨ c = '\\' then
        String.mk (driveChars cwd ++ '\\' :: List.map backslashChar rest)
      else
        match rest with
        | ':' :: rest2 => String.mk (c :: ':' :: List.map backslashChar rest2)
        | _ => cwd ++ "\\" ++ String.mk (List.map backslashChar (c :: rest))) =
    String.mk (c :: ':' :: List.map backslashChar rest)
  dsimp only
  rw [if_neg h]
  rfl

/-- C9 counterexample: with the resolution step of converter.py line 70
included (the translator only executes on Windows, where a rooted
drive-less path resolves against the drive of the current working
directory), the translator is neither round-trip-stable nor a pure
function of the path alone: its own output /mnt/c/x resolves to
C:\mnt\c\x, so a second application yields /mnt/c/mnt/c/x, and on a
rooted input the result varies with the working directory. -/
theorem c9_counterexample :
    windows_to_wsl_path_resolved "C:\\work" "C:\\x" = "/mnt/c/x" ∧
    windows_to_wsl_path_resolved "C:\\work"
        (windows_to_wsl_path_resolved "C:\\work" "C:\\x") =
      "/mnt/c/mnt/c/x" ∧
    windows_to_wsl_path_resolved "C:\\work"
        (windows_to_wsl_path_resolved "C:\\work" "C:\\x") ≠
      windows_to_wsl_path_resolved "C:\\work" "C:\\x" ∧
    windows_to_wsl_path_resolved "D:\\work" "/mnt/c/x" ≠
      windows_to_wsl_path_resolved "C:\\work" "/mnt/c/x" := by
  decide

/-- C9 (amended): on every valid Windows absolute path (drive letter,
colon, remainder) the translator is deterministic in a fixed
environment — two applications with the same working directory agree —
and its first application does not consult the working directory at
all; and the post-resolution string rewrite of lines 72-77 is
idempotent.  Round-trip stability and independence from ambient state
fail for the full translator, see the counterexample. -/
theorem c9_amended_translator (cwd : String) (c : Char) (rest : List Char)
    (h : c.isAlpha = true) :
    windows_to_wsl_path_resolved cwd (String.mk (c :: ':' :: rest)) =
        windows_to_wsl_path_resolved cwd (String.mk (c :: ':' :: rest)) ∧
    (∀ cwd2,
      windows_to_wsl_path_resolved cwd2 (String.mk (c :: ':' :: rest)) =
        windows_to_wsl_path_resolved cwd (String.mk (c :: ':' :: rest))) ∧
    windows_to_wsl_path (windows_to_wsl_path (String.mk (c :: ':' :: rest))) =
      windows_to_wsl_path (String.mk (c :: ':' :: rest)) := by
  have hsep := isAlpha_not_sep c h
  refine ⟨rfl, ?_, ?_⟩
  · intro cwd2
    unfold windows_to_wsl_path_resolved
    rw [resolveWindows_drive cwd2 c rest hsep,
      resolveWindows_drive cwd c rest hsep]
  · calc windows_to_wsl_path (windows_to_wsl_path (String.mk (c :: ':' :: rest)))
        = String.mk (windowsToWslChars (windowsToWslChars (c :: ':' :: rest))) := rfl
      _ = String.mk (windowsToWslChars (c :: ':' :: rest)) :=
          congrArg String.mk (wtwChars_idem c rest h)
      _ = windows_to_wsl_path (String.mk (c :: ':' :: rest)) := rfl

/-- Witness for the amended C9 at the concrete path C:\x with working
directory C:\work. -/
theorem c9_amended_translator_witness :
    ('C'.isAlpha = true) ∧
    (windows_to_wsl_path_resolved "C:\\work"
          (String.mk ('C' :: ':' :: '\\' :: 'x' :: [])) =
        windows_to_wsl_path_resolved "C:\\work"
          (String.mk ('C' :: ':' :: '\\' :: 'x' :: [])) ∧
      (∀ cwd2,
        windows_to_wsl_path_resolved cwd2
            (String.mk ('C' :: ':' :: '\\' :: 'x' :: [])) =
          windows_to_wsl_path_resolved "C:\\work"
            (String.mk ('C' :: ':' :: '\\' :: 'x' :: []))) ∧
      windows_to_wsl_path (windows_to_wsl_path
          (String.mk ('C' :: ':' :: '\\' :: 'x' :: []))) =
        windows_to_wsl_path (String.mk ('C' :: ':' :: '\\' :: 'x' :: []))) :=
  ⟨by decide,
    c9_amended_translator "C:\\work" 'C' ('\\' :: 'x' :: []) (by decide)⟩

/-- C6: the built command in native mode has the executable path as
argument 0 and the raw input path as the last argument; in bridged mode
it starts with the bridge launcher name wsl followed by the tool name
soffice and uses translated paths for the output directory and the
input; in both modes the flags are headless execution, target format
pdf and an explicit output directory, with the input file as the final
positional argument. -/
theorem c6_command_layout (soffice_path input_path out_dir : String) :
    (build_convert_command soffice_path input_path out_dir false).head? =
        some soffice_path ∧
    (build_convert_command soffice_path input_path out_dir false).get? 1 =
        some "--headless" ∧
    (build_convert_command soffice_path input_path out_dir false).get? 2 =
        some "--convert-to" ∧
    (build_convert_command soffice_path input_path out_dir false).get? 3 =
        some "pdf" ∧
    (build_convert_command soffice_path input_path out_dir false).get? 4 =
        some "--outdir" ∧
    (build_convert_command soffice_path input_path out_dir false).get? 5 =
        some out_dir ∧
    (build_convert_command soffice_path input_path out_dir false).getLast? =
        some input_path ∧
    (build_convert_command soffice_path input_path out_dir false).length = 7 ∧
    (build_convert_command soffice_path input_path out_dir true).head? =
        some "wsl" ∧
    (build_convert_command soffice_path input_path out_dir true).get? 1 =
        some "soffice" ∧
    (build_convert_command soffice_path input_path out_dir true).get? 2 =
        some "--headless" ∧
    (build_convert_command soffice_path input_path out_dir true).get? 3 =
        some "--convert-to" ∧
    (build_convert_command soffice_path input_path out_dir true).get? 4 =
        some "pdf" ∧
    (build_convert_command soffice_path input_path out_dir true).get? 5 =
        some "--outdir" ∧
    (build_convert_command soffice_path input_path out_dir true).get? 6 =
        some (windows_to_wsl_path out_dir) ∧
    (build_convert_command soffice_path input_path out_dir true).getLast? =
        some (windows_to_wsl_path input_path) ∧
    (build_convert_command soffice_path input_path out_dir true).length = 8 :=
  ⟨rfl, rfl, rfl, rfl, rfl, rfl, rfl, rfl, rfl, rfl, rfl, rfl, rfl, rfl,
    rfl, rfl, rfl⟩

/-! ## Claims about the locator -/

/-- C3 counterexample: with the override variable set to the empty
string (a "set" value whose path, the current directory, exists by the
oracle), the Python truthiness test skips the override block and the
locator returns the search-path hit instead of the override value. -/
theorem c3_counterexample :
    (Env.mk (some "") (fun _ => true) (fun _ => some "/usr/bin/soffice")
        "Linux").libreoffice_path = some "" ∧
    (Env.mk (some "") (fun _ => true) (fun _ => some "/usr/bin/soffice")
        "Linux").pathExists "" = true ∧
    find_libreoffice (Env.mk (some "") (fun _ => true)
        (fun _ => some "/usr/bin/soffice") "Linux") =
      Except.ok ("/usr/bin/soffice", false) ∧
    find_libreoffice (Env.mk (some "") (fun _ => true)
        (fun _ => some "/usr/bin/soffice") "Linux") ≠
      Except.ok ("", false) := by
  refine ⟨rfl, rfl, rfl, ?_⟩
  intro h
  rw [show find_libreoffice (Env.mk (some "") (fun _ => true)
      (fun _ => some "/usr/bin/soffice") "Linux") =
      Except.ok ("/usr/bin/soffice", false) from rfl] at h
  simp at h

/-- C3 (amended): whenever the override variable is set to a non-empty
path that exists, the locator returns exactly that path with
bridged=false, regardless of platform and of any other installed
executables or search-path contents. -/
theorem c3_amended_override_wins (env : Env) (p : String)
    (hset : env.libreoffice_path = some p) (hne : p ≠ "")
    (hex : env.pathExists p = true) :
    find_libreoffice env = Except.ok (p, false) := by
  simp [find_libreoffice, hset, hne, hex]

/-- Witness for the amended C3 at a concrete environment. -/
theorem c3_amended_override_wins_witness :
    (Env.mk (some "/opt/soffice") (fun _ => true) (fun _ => none)
        "Linux").libreoffice_path = some "/opt/soffice" ∧
    ("/opt/soffice" : String) ≠ "" ∧
    (Env.mk (some "/opt/soffice") (fun _ => true) (fun _ => none)
        "Linux").pathExists "/opt/soffice" = true ∧
    find_libreoffice (Env.mk (some "/opt/soffice") (fun _ => true)
        (fun _ => none) "Linux") = Except.ok ("/opt/soffice", false) :=
  ⟨rfl, by decide, rfl,
    c3_amended_override_wins _ "/opt/soffice" rfl (by decide) rfl⟩

/-- C4 counterexample: with the override variable set to the empty
string and no path existing, the locator does not fail immediately: it
falls through to search-path detection and succeeds. -/
theorem c4_counterexample :
    (Env.mk (some "") (fun _ => false)
        (fun n => if n = "soffice" then some "/usr/bin/soffice" else none)
        "Linux").libreoffice_path = some "" ∧
    (Env.mk (some "") (fun _ => false)
        (fun n => if n = "soffice" then some "/usr/bin/soffice" else none)
        "Linux").pathExists "" = false ∧
    find_libreoffice (Env.mk (some "") (fun _ => false)
        (fun n => if n = "soffice" then some "/usr/bin/soffice" else none)
        "Linux") = Except.ok ("/usr/bin/soffice", false) ∧
    (∀ m, find_libreoffice (Env.mk (some "") (fun _ => false)
        (fun n => if n = "soffice" then some "/usr/bin/soffice" else none)
        "Linux") ≠ Except.error m) := by
  refine ⟨rfl, rfl, rfl, ?_⟩
  intro m h
  rw [show find_libreoffice (Env.mk (some "") (fun _ => false)
      (fun n => if n = "soffice" then some "/usr/bin/soffice" else none)
      "Linux") = Except.ok ("/usr/bin/soffice", false) from rfl] at h
  simp at h

/-- C4 (amended): whenever the override variable is set to a non-empty
path that does not exist, the locator fails with the override error
message immediately, never falling through to search-path or
installation-directory auto-detection. -/
theorem c4_amended_override_fails_fast (env : Env) (p : String)
    (hset : env.libreoffice_path = some p) (hne : p ≠ "")
    (hex : env.pathExists p = false) :
    find_libreoffice env =
      Except.error ("LIBREOFFICE_PATH not found: " ++ p) := by
  simp [find_libreoffice, hset, hne, hex]

/-- Witness for the amended C4 at a concrete environment in which
auto-detection would succeed, showing it is not reached. -/
theorem c4_amended_override_fails_fast_witness :
    (Env.mk (some "/missing/soffice") (fun _ => false)
        (fun _ => some "/usr/bin/soffice") "Linux").libreoffice_path =
      some "/missing/soffice" ∧
    ("/missing/soffice" : String) ≠ "" ∧
    (Env.mk (some "/missing/soffice") (fun _ => false)
        (fun _ => some "/usr/bin/soffice") "Linux").pathExists
      "/missing/soffice" = false ∧
    find_libreoffice (Env.mk (some "/missing/soffice") (fun _ => false)
        (fun _ => some "/usr/bin/soffice") "Linux") =
      Except.error ("LIBREOFFICE_PATH not found: " ++ "/missing/soffice") :=
  ⟨rfl, by decide, rfl,
    c4_amended_override_fails_fast _ "/missing/soffice" rfl (by decide) rfl⟩

/-- C5: with no override variable set, the locator resolves in exactly
the first-match-wins order the specification describes, here expressed
as equality with the spec-worded resolution procedure locateSpec. -/
theorem c5_resolution_order (env : Env) (h : env.libreoffice_path = none) :
    find_libreoffice env = locateSpec env := by
  unfold find_libreoffice
  rw [h]
  cases h1 : env.which "soffice.exe" <;>
    cases h2 : env.which "soffice" <;>
      cases h3 : env.which "libreoffice" <;>
        cases h4 : env.which "wsl" <;>
          cases h5 : env.pathExists winCandidate1 <;>
            cases h6 : env.pathExists winCandidate2 <;>
              by_cases hw : env.system = "Windows" <;>
                simp [findNoOverride, locateSpec, searchWindows,
                  searchDefault, windowsInstallCandidates, firstWhich,
                  List.filter, h1, h2, h3, h4, h5, h6, hw]

/-- Witness for C5 at a concrete environment with no override set. -/
theorem c5_resolution_order_witness :
    (Env.mk none (fun _ => false)
        (fun n => if n = "libreoffice" then some "/usr/bin/libreoffice"
          else none) "Linux").libreoffice_path = none ∧
    find_libreoffice (Env.mk none (fun _ => false)
        (fun n => if n = "libreoffice" then some "/usr/bin/libreoffice"
          else none) "Linux") =
      locateSpec (Env.mk none (fun _ => false)
        (fun n => if n = "libreoffice" then some "/usr/bin/libreoffice"
          else none) "Linux") :=
  ⟨rfl, c5_resolution_order _ rfl⟩

/-! ## Lemmas about the converter state model -/

theorem pathUnder_append (t x : String) : pathUnder t (t ++ "/" ++ x) = true := by
  unfold pathUnder
  have h : (t ++ "/" ++ x).toList = (t ++ "/").toList ++ x.toList := by
    simp [String.toList, String.data_append]
  rw [h]
  rw [List.isPrefixOf_iff_prefix]
  exact List.prefix_append _ _

theorem cleanupTmp_dirs_no_tmp (tmpDir : String) (fs : FS) :
    tmpDir ∉ (cleanupTmp tmpDir fs).dirs := by
  intro hmem
  unfold cleanupTmp at hmem
  rw [List.mem_filter] at hmem
  simp at hmem

theorem cleanupTmp_files_not_under (tmpDir : String) (fs : FS) :
    ∀ e ∈ (cleanupTmp tmpDir fs).files, pathUnder tmpDir e.1 = false := by
  intro e he
  unfold cleanupTmp at he
  rw [List.mem_filter] at he
  simpa using he.2

theorem cleanupTmp_dirs_mem (tmpDir d : String) (fs : FS) (hd : d ∈ fs.dirs)
    (hne : d ≠ tmpDir) (hnu : pathUnder tmpDir d = false) :
    d ∈ (cleanupTmp tmpDir fs).dirs := by
  unfold cleanupTmp
  rw [List.mem_filter]
  exact ⟨hd, by simp [hne, hnu]⟩

theorem fsLookup_cleanupTmp_under (tmpDir p : String) (fs : FS)
    (hp : pathUnder tmpDir p = true) :
    fsLookup (cleanupTmp tmpDir fs) p = none := by
  have h0 : List.find? (fun e => e.1 == p) (cleanupTmp tmpDir fs).files =
      none := by
    rw [List.find?_eq_none]
    intro e he hkey
    unfold cleanupTmp at he
    rw [List.mem_filter] at he
    have h1 : e.1 = p := by simpa using hkey
    have h2 : pathUnder tmpDir e.1 = false := by simpa using he.2
    rw [h1, hp] at h2
    cases h2
  unfold fsLookup
  rw [h0]
  rfl

theorem mem_foldl_insert_of_mem_acc (l : List String) (acc : List String)
    (a : String) (h : a ∈ acc) :
    a ∈ l.foldl (fun ds x => ds.insert x) acc := by
  induction l generalizing acc with
  | nil => exact h
  | cons x t ih => exact ih (acc.insert x) (List.mem_insert_of_mem h)

theorem mem_foldl_insert (l : List String) (acc : List String) (a : String)
    (h : a ∈ l) :
    a ∈ l.foldl (fun ds x => ds.insert x) acc := by
  induction l generalizing acc with
  | nil => cases h
  | cons x t ih =>
    cases h with
    | head =>
      exact mem_foldl_insert_of_mem_acc t (acc.insert a) a
        (List.mem_insert_self a acc)
    | tail _ hmem => exact ih (acc.insert x) hmem

theorem mkdirAddDirs_files (fs : FS) (dir : String) :
    (mkdirAddDirs fs dir).files = fs.files := rfl

theorem mkdirAddDirs_dirs_mem (fs : FS) (dir d : String)
    (hd : d ∈ dirChain dir) : d ∈ (mkdirAddDirs fs dir).dirs :=
  mem_foldl_insert (dirChain dir) fs.dirs d hd

theorem mkdirParents_error_unexpected (fs : FS) (dir : String) (e : ConvError)
    (h : mkdirParents fs dir = Except.error e) :
    ∃ msg, e = ConvError.unexpected msg := by
  unfold mkdirParents at h
  split at h
  · injection h with h2
    exact ⟨_, h2.symm⟩
  · cases h

theorem mkdirParents_ok (fs : FS) (dir : String)
    (h : ∀ d ∈ dirChain dir, fsLookup fs d = none) :
    mkdirParents fs dir = Except.ok (mkdirAddDirs fs dir) := by
  have hany : (dirChain dir).any (fun d => (fsLookup fs d).isSome) = false := by
    rw [List.any_eq_false]
    intro d hd
    rw [h d hd]
    simp
  unfold mkdirParents
  rw [hany]
  simp

theorem fsMove_fst_not_conversion (fs : FS) (src dst : String) (m : String) :
    (fsMove fs src dst).1 ≠ Except.error (ConvError.conversion m) := by
  unfold fsMove
  split
  · simp
  · split
    · dsimp only
      split <;> simp
    · simp

theorem convertInTmp_eq (proc : ProcBehavior)
    (tmpDir soffice_path : String) (use_wsl : Bool)
    (input_path output_path : String) (fs : FS)
    (hraise : proc.raises = false) :
    convertInTmp proc tmpDir soffice_path use_wsl input_path output_path fs =
      (if proc.returncode ≠ 0 then
        (Except.error (ConvError.conversion
          (if pyStrip proc.stderr = "" then genericFailMsg
           else pyStrip proc.stderr)), fsAfterRun proc tmpDir fs)
      else if fsExists (fsAfterRun proc tmpDir fs)
          (tmpDir ++ "/" ++ pathStem input_path ++ ".pdf") then
        (match mkdirParents (fsAfterRun proc tmpDir fs)
            (pathParent output_path) with
         | Except.error e => (Except.error e, fsAfterRun proc tmpDir fs)
         | Except.ok fs3 => fsMove fs3
            (tmpDir ++ "/" ++ pathStem input_path ++ ".pdf") output_path)
      else
        (Except.error (ConvError.conversion noPdfMsg),
          fsAfterRun proc tmpDir fs)) := by
  unfold convertInTmp
  rw [hraise]
  rfl

/-! ## Claims about the converter -/

theorem fsLookup_cleanupTmp_head (tmpDir p c : String)
    (rest : List (String × String)) (D : List String)
    (hp : pathUnder tmpDir p = false) :
    fsLookup (cleanupTmp tmpDir (FS.mk ((p, c) :: rest) D)) p = some c := by
  unfold cleanupTmp fsLookup
  dsimp only
  rw [List.filter_cons]
  simp only [hp, Bool.not_false, if_true]
  rw [List.find?_cons_of_pos _ (by simp)]
  rfl

/-- C7 counterexample: a successful conversion into an output path at
which a directory already exists does not relocate the PDF to exactly
the requested output path and does not overwrite the entry there: the
PDF lands inside the directory instead. -/
theorem c7_counterexample :
    (convert_docx_to_pdf (Env.mk (some "/opt/soffice") (fun _ => true)
        (fun _ => none) "Linux")
        (ProcBehavior.mk false "" 0 "" [("report.pdf", "PDF")])
        "/tmp/t1" "report.docx" "out"
        (FS.mk [("out/x", "old")] ["out"])).1 = Except.ok () ∧
    fsLookup (convert_docx_to_pdf (Env.mk (some "/opt/soffice")
        (fun _ => true) (fun _ => none) "Linux")
        (ProcBehavior.mk false "" 0 "" [("report.pdf", "PDF")])
        "/tmp/t1" "report.docx" "out"
        (FS.mk [("out/x", "old")] ["out"])).2 "out" = none ∧
    ("out" : String) ∈ (convert_docx_to_pdf (Env.mk (some "/opt/soffice")
        (fun _ => true) (fun _ => none) "Linux")
        (ProcBehavior.mk false "" 0 "" [("report.pdf", "PDF")])
        "/tmp/t1" "report.docx" "out"
        (FS.mk [("out/x", "old")] ["out"])).2.dirs ∧
    fsLookup (convert_docx_to_pdf (Env.mk (some "/opt/soffice")
        (fun _ => true) (fun _ => none) "Linux")
        (ProcBehavior.mk false "" 0 "" [("report.pdf", "PDF")])
        "/tmp/t1" "report.docx" "out"
        (FS.mk [("out/x", "old")] ["out"])).2 "out/report.pdf" =
      some "PDF" := by
  refine ⟨rfl, rfl, ?_, rfl⟩
  decide

/-- C7 (amended): on a successful conversion whose requested output
path is not an existing directory and whose output parent hierarchy is
creatable (no regular file occupies a component of it, otherwise mkdir
raises an OSError), the converter creates the output parent hierarchy
if missing and relocates the produced PDF from the temporary directory
to exactly the requested output path with move semantics (the produced
content is found at the output path, replacing any regular file there,
and no file remains at the temporary location).  When a directory
occupies the output path the file is instead moved inside that
directory, see the counterexample. -/
theorem c7_amended_relocation (env : Env) (proc : ProcBehavior)
    (tmpDir input_path output_path content : String) (fs : FS)
    (loc : String × Bool)
    (hfind : find_libreoffice env = Except.ok loc)
    (hraise : proc.raises = false)
    (hrc : proc.returncode = 0)
    (hlk : fsLookup (fsAfterRun proc tmpDir fs)
        (tmpDir ++ "/" ++ pathStem input_path ++ ".pdf") = some content)
    (hmk : ∀ d ∈ dirChain (pathParent output_path),
        fsLookup (fsAfterRun proc tmpDir fs) d = none)
    (hnotdir : output_path ∉ (mkdirAddDirs (fsAfterRun proc tmpDir fs)
        (pathParent output_path)).dirs)
    (hout : pathUnder tmpDir output_path = false)
    (hchain : ∀ d ∈ dirChain (pathParent output_path),
        d ≠ tmpDir ∧ pathUnder tmpDir d = false) :
    (convert_docx_to_pdf env proc tmpDir input_path output_path fs).1 =
        Except.ok () ∧
    fsLookup (convert_docx_to_pdf env proc tmpDir input_path
        output_path fs).2 output_path = some content ∧
    fsLookup (convert_docx_to_pdf env proc tmpDir input_path
        output_path fs).2
      (tmpDir ++ "/" ++ pathStem input_path ++ ".pdf") = none ∧
    (∀ d ∈ dirChain (pathParent output_path),
      d ∈ (convert_docx_to_pdf env proc tmpDir input_path
        output_path fs).2.dirs) ∧
    (∀ e ∈ (convert_docx_to_pdf env proc tmpDir input_path
        output_path fs).2.files, pathUnder tmpDir e.1 = false) := by
  obtain ⟨sp, uw⟩ := loc
  have hconv : convert_docx_to_pdf env proc tmpDir input_path output_path fs =
      ((convertInTmp proc tmpDir sp uw input_path output_path fs).1,
        cleanupTmp tmpDir
          (convertInTmp proc tmpDir sp uw input_path output_path fs).2) := by
    unfold convert_docx_to_pdf
    rw [hfind]
  have hbody := convertInTmp_eq proc tmpDir sp uw input_path output_path fs hraise
  rw [if_neg (show ¬ proc.returncode ≠ 0 by simp [hrc])] at hbody
  have hpdfex : fsExists (fsAfterRun proc tmpDir fs)
      (tmpDir ++ "/" ++ pathStem input_path ++ ".pdf") = true := by
    unfold fsExists
    rw [hlk]
    rfl
  rw [if_pos hpdfex] at hbody
  have hbody2 : convertInTmp proc tmpDir sp uw input_path output_path fs =
      fsMove (mkdirAddDirs (fsAfterRun proc tmpDir fs)
          (pathParent output_path))
        (tmpDir ++ "/" ++ pathStem input_path ++ ".pdf") output_path := by
    rw [hbody, mkdirParents_ok _ _ hmk]
  have hlk3 : fsLookup (mkdirAddDirs (fsAfterRun proc tmpDir fs)
      (pathParent output_path))
      (tmpDir ++ "/" ++ pathStem input_path ++ ".pdf") = some content := hlk
  have hmove : fsMove (mkdirAddDirs (fsAfterRun proc tmpDir fs)
        (pathParent output_path))
      (tmpDir ++ "/" ++ pathStem input_path ++ ".pdf") output_path =
      (Except.ok (),
        FS.mk ((output_path, content) ::
          fsEraseFile (fsEraseFile (mkdirAddDirs (fsAfterRun proc tmpDir fs)
            (pathParent output_path)).files
            (tmpDir ++ "/" ++ pathStem input_path ++ ".pdf")) output_path)
          (mkdirAddDirs (fsAfterRun proc tmpDir fs)
            (pathParent output_path)).dirs) := by
    unfold fsMove
    rw [hlk3]
    dsimp only
    rw [if_neg hnotdir]
  rw [hbody2, hmove] at hconv
  rw [hconv]
  dsimp only
  have hunder : pathUnder tmpDir
      (tmpDir ++ "/" ++ pathStem input_path ++ ".pdf") = true := by
    have ha : tmpDir ++ "/" ++ pathStem input_path ++ ".pdf" =
        tmpDir ++ "/" ++ (pathStem input_path ++ ".pdf") := by
      rw [String.append_assoc]
    rw [ha]
    exact pathUnder_append tmpDir (pathStem input_path ++ ".pdf")
  refine ⟨rfl, ?_, ?_, ?_, ?_⟩
  · exact fsLookup_cleanupTmp_head tmpDir output_path content _ _ hout
  · exact fsLookup_cleanupTmp_under tmpDir _ _ hunder
  · intro d hd
    exact cleanupTmp_dirs_mem tmpDir d _
      (mkdirAddDirs_dirs_mem _ _ d hd) (hchain d hd).1 (hchain d hd).2
  · exact cleanupTmp_files_not_under tmpDir _

/-- Witness for the amended C7 at a concrete successful conversion. -/
theorem c7_amended_relocation_witness :
    find_libreoffice (Env.mk (some "/opt/soffice") (fun _ => true)
        (fun _ => none) "Linux") = Except.ok ("/opt/soffice", false) ∧
    fsLookup (fsAfterRun (ProcBehavior.mk false "" 0 "" [("report.pdf", "PDF")])
        "/tmp/t1" (FS.mk [] []))
      ("/tmp/t1" ++ "/" ++ pathStem "report.docx" ++ ".pdf") = some "PDF" ∧
    (fsLookup (convert_docx_to_pdf (Env.mk (some "/opt/soffice")
        (fun _ => true) (fun _ => none) "Linux")
        (ProcBehavior.mk false "" 0 "" [("report.pdf", "PDF")])
        "/tmp/t1" "report.docx" "out/final.pdf" (FS.mk [] [])).2
      "out/final.pdf" = some "PDF" ∧
    (∀ d ∈ dirChain (pathParent "out/final.pdf"),
      d ∈ (convert_docx_to_pdf (Env.mk (some "/opt/soffice")
        (fun _ => true) (fun _ => none) "Linux")
        (ProcBehavior.mk false "" 0 "" [("report.pdf", "PDF")])
        "/tmp/t1" "report.docx" "out/final.pdf" (FS.mk [] [])).2.dirs)) :=
  ⟨rfl, rfl, by
    have h := c7_amended_relocation (Env.mk (some "/opt/soffice")
        (fun _ => true) (fun _ => none) "Linux")
      (ProcBehavior.mk false "" 0 "" [("report.pdf", "PDF")])
      "/tmp/t1" "report.docx" "out/final.pdf" "PDF" (FS.mk [] [])
      ("/opt/soffice", false) rfl rfl rfl rfl (by decide) (by decide)
      (by decide) (by decide)
    exact ⟨h.2.1, h.2.2.2.1⟩⟩

/-- C8: every call of the converter that reaches temporary-directory
acquisition (the locator succeeded) removes the temporary directory on
every exit path: whatever the process behaviour (spawn failure,
non-zero exit, missing output, success, move failure), after the call
the temporary directory is no longer a directory of the filesystem and
no file under it remains. -/
theorem c8_tmpdir_always_removed (env : Env) (proc : ProcBehavior)
    (tmpDir input_path output_path : String) (fs : FS) (loc : String × Bool)
    (hfind : find_libreoffice env = Except.ok loc) :
    tmpDir ∉
        (convert_docx_to_pdf env proc tmpDir input_path output_path fs).2.dirs ∧
      ∀ e ∈ (convert_docx_to_pdf env proc tmpDir input_path
          output_path fs).2.files,
        pathUnder tmpDir e.1 = false := by
  obtain ⟨sp, uw⟩ := loc
  unfold convert_docx_to_pdf
  rw [hfind]
  exact ⟨cleanupTmp_dirs_no_tmp tmpDir _, cleanupTmp_files_not_under tmpDir _⟩

/-- C1: once the locator has succeeded and the process spawn does not
itself raise, the converter raises its RuntimeError exactly when the
external process exits non-zero or no file named stem-dot-pdf exists in
the temporary output directory after it exits; in the non-zero-exit
case the error message is the captured stderr stream with surrounding
whitespace trimmed, or the fixed generic message when the trimmed
stream is empty. -/
theorem c1_runtime_error_iff (env : Env) (proc : ProcBehavior)
    (tmpDir input_path output_path : String) (fs : FS) (loc : String × Bool)
    (hfind : find_libreoffice env = Except.ok loc)
    (hraise : proc.raises = false) :
    ((∃ m, (convert_docx_to_pdf env proc tmpDir input_path
          output_path fs).1 = Except.error (ConvError.conversion m)) ↔
      (proc.returncode ≠ 0 ∨
        fsExists (fsAfterRun proc tmpDir fs)
          (tmpDir ++ "/" ++ pathStem input_path ++ ".pdf") = false)) ∧
    (proc.returncode ≠ 0 →
      (convert_docx_to_pdf env proc tmpDir input_path output_path fs).1 =
        Except.error (ConvError.conversion
          (if pyStrip proc.stderr = "" then genericFailMsg
           else pyStrip proc.stderr))) := by
  obtain ⟨sp, uw⟩ := loc
  have hconv : (convert_docx_to_pdf env proc tmpDir input_path
      output_path fs).1 =
      (convertInTmp proc tmpDir sp uw input_path output_path fs).1 := by
    unfold convert_docx_to_pdf
    rw [hfind]
  rw [hconv, convertInTmp_eq proc tmpDir sp uw input_path output_path fs hraise]
  by_cases hrc : proc.returncode = 0
  · have hrc2 : ¬ (proc.returncode ≠ 0) := by simp [hrc]
    rw [if_neg hrc2]
    by_cases hpdf : fsExists (fsAfterRun proc tmpDir fs)
        (tmpDir ++ "/" ++ pathStem input_path ++ ".pdf") = true
    · rw [if_pos hpdf]
      cases hmk : mkdirParents (fsAfterRun proc tmpDir fs)
          (pathParent output_path) with
      | error e =>
        obtain ⟨msg, rfl⟩ := mkdirParents_error_unexpected _ _ _ hmk
        refine ⟨⟨?_, ?_⟩, ?_⟩
        · rintro ⟨m, hm⟩
          simp at hm
        · rintro (h | h)
          · exact absurd hrc h
          · rw [hpdf] at h
            cases h
        · intro h
          exact absurd hrc h
      | ok fs3 =>
        refine ⟨⟨?_, ?_⟩, ?_⟩
        · rintro ⟨m, hm⟩
          exact absurd hm (fsMove_fst_not_conversion _ _ _ m)
        · rintro (h | h)
          · exact absurd hrc h
          · rw [hpdf] at h
            cases h
        · intro h
          exact absurd hrc h
    · have hpdf2 : fsExists (fsAfterRun proc tmpDir fs)
          (tmpDir ++ "/" ++ pathStem input_path ++ ".pdf") = false := by
        simpa using hpdf
      rw [if_neg hpdf]
      refine ⟨⟨?_, ?_⟩, ?_⟩
      · intro _
        exact Or.inr hpdf2
      · intro _
        exact ⟨noPdfMsg, rfl⟩
      · intro h
        exact absurd hrc h
  · rw [if_pos hrc]
    refine ⟨⟨?_, ?_⟩, ?_⟩
    · intro _
      exact Or.inl hrc
    · intro _
      exact ⟨_, rfl⟩
    · intro _
      rfl

/-- Witness for C1 at a concrete call whose process exits non-zero with
whitespace-padded stderr. -/
theorem c1_runtime_error_iff_witness :
    find_libreoffice (Env.mk (some "/opt/soffice") (fun _ => true)
        (fun _ => none) "Linux") = Except.ok ("/opt/soffice", false) ∧
    (ProcBehavior.mk false "" 1 "  boom \n" []).raises = false ∧
    (((∃ m, (convert_docx_to_pdf (Env.mk (some "/opt/soffice")
          (fun _ => true) (fun _ => none) "Linux")
          (ProcBehavior.mk false "" 1 "  boom \n" [])
          "/tmp/t1" "report.docx" "out/final.pdf" (FS.mk [] [])).1 =
          Except.error (ConvError.conversion m)) ↔
        ((ProcBehavior.mk false "" 1 "  boom \n" []).returncode ≠ 0 ∨
          fsExists (fsAfterRun (ProcBehavior.mk false "" 1 "  boom \n" [])
              "/tmp/t1" (FS.mk [] []))
            ("/tmp/t1" ++ "/" ++ pathStem "report.docx" ++ ".pdf") = false)) ∧
      ((ProcBehavior.mk false "" 1 "  boom \n" []).returncode ≠ 0 →
        (convert_docx_to_pdf (Env.mk (some "/opt/soffice")
          (fun _ => true) (fun _ => none) "Linux")
          (ProcBehavior.mk false "" 1 "  boom \n" [])
          "/tmp/t1" "report.docx" "out/final.pdf" (FS.mk [] [])).1 =
          Except.error (ConvError.conversion
            (if pyStrip (ProcBehavior.mk false "" 1 "  boom \n" []).stderr = ""
             then genericFailMsg
             else pyStrip (ProcBehavior.mk false "" 1 "  boom \n" []).stderr)))) :=
  ⟨rfl, rfl,
    c1_runtime_error_iff (Env.mk (some "/opt/soffice") (fun _ => true)
        (fun _ => none) "Linux")
      (ProcBehavior.mk false "" 1 "  boom \n" [])
      "/tmp/t1" "report.docx" "out/final.pdf" (FS.mk [] [])
      ("/opt/soffice", false) rfl rfl⟩

/-- Witness for C8 at a concrete call whose process exits non-zero. -/
theorem c8_tmpdir_always_removed_witness :
    find_libreoffice (Env.mk (some "/opt/soffice") (fun _ => true)
        (fun _ => none) "Linux") = Except.ok ("/opt/soffice", false) ∧
    ((("/tmp/t1" : String)) ∉
        (convert_docx_to_pdf (Env.mk (some "/opt/soffice") (fun _ => true)
          (fun _ => none) "Linux")
          (ProcBehavior.mk false "" 1 "boom" [("junk.txt", "j")])
          "/tmp/t1" "report.docx" "out/final.pdf" (FS.mk [] [])).2.dirs ∧
      ∀ e ∈ (convert_docx_to_pdf (Env.mk (some "/opt/soffice")
          (fun _ => true) (fun _ => none) "Linux")
          (ProcBehavior.mk false "" 1 "boom" [("junk.txt", "j")])
          "/tmp/t1" "report.docx" "out/final.pdf" (FS.mk [] [])).2.files,
        pathUnder "/tmp/t1" e.1 = false) :=
  ⟨rfl, c8_tmpdir_always_removed _ _ "/tmp/t1" "report.docx" "out/final.pdf"
    (FS.mk [] []) ("/opt/soffice", false) rfl⟩

end Librawincov
